import Mathlib

/-!
Verification of the SalesHub backend CORE components against their
specification: the sliding-window rate limiter (src/utils/rate_limiter.py),
the in-memory analytics aggregator and response timer (src/utils/analytics.py),
and the AI request orchestrator (src/utils/gemini_client.py), together with
the analytics side of the chat route (src/routes/chat.py).

Timestamps are modelled as rationals (Python time.time floats), Python int()
truncation as pyInt, and dictionaries keyed by identity as total functions
with the defaultdict default.
-/

namespace SalesHub

/-- Python int() truncates toward zero. -/
def pyInt (q : ℚ) : ℤ := if 0 ≤ q then ⌊q⌋ else -⌊-q⌋

/-- Python min() over a list; the source only applies it to nonempty lists
(the rejection branches, reached when a bucket already holds at least one
timestamp). The value at [] is junk standing in for the ValueError raise. -/
def listMin : List ℚ → ℚ
  | [] => 0
  | x :: xs => xs.foldl min x

/-! ## Rate limiter: class RateLimiter, src/utils/rate_limiter.py -/

/-- State of RateLimiter: configured limits plus the two per-identity
timestamp buckets (defaultdict(list) modelled as total functions). -/
structure RateLimiter where
  requests_per_minute : ℕ
  requests_per_day : ℕ
  minute_requests : String → List ℚ
  day_requests : String → List ℚ

/-- RateLimiter.__init__: empty buckets. -/
def RateLimiter.init (rpm rpd : ℕ) : RateLimiter :=
  ⟨rpm, rpd, fun _ => [], fun _ => []⟩

/-- RateLimiter._clean_old_requests: drop timestamps at or below
current_time - 60 (minute bucket) and current_time - 86400 (day bucket)
for the given identity. -/
def clean_old_requests (rl : RateLimiter) (u : String) (t : ℚ) : RateLimiter :=
  { rl with
    minute_requests := fun v =>
      if v = u then (rl.minute_requests u).filter (fun ts => decide (ts > t - 60))
      else rl.minute_requests v
    day_requests := fun v =>
      if v = u then (rl.day_requests u).filter (fun ts => decide (ts > t - 86400))
      else rl.day_requests v }

/-- Result triple of RateLimiter.check_rate_limit:
(is_allowed, error_message or None, retry_after_seconds or None). -/
structure CheckResult where
  allowed : Bool
  message : Option String
  retry_after : Option ℤ
deriving Repr, DecidableEq

/-- RateLimiter.check_rate_limit at current time t; returns the mutated
state (pruning is a side effect) together with the result triple. -/
def check_rate_limit (rl : RateLimiter) (u : String) (t : ℚ) :
    RateLimiter × CheckResult :=
  let rl2 := clean_old_requests rl u t
  let minute_count := (rl2.minute_requests u).length
  let day_count := (rl2.day_requests u).length
  if rl.requests_per_minute ≤ minute_count then
    let oldest := listMin (rl2.minute_requests u)
    (rl2, ⟨false,
      some ("Rate limit exceeded. Maximum " ++ toString rl.requests_per_minute
        ++ " requests per minute."),
      some (pyInt (60 - (t - oldest)) + 1)⟩)
  else if rl.requests_per_day ≤ day_count then
    let oldest := listMin (rl2.day_requests u)
    (rl2, ⟨false,
      some ("Daily limit exceeded. Maximum " ++ toString rl.requests_per_day
        ++ " requests per day."),
      some (pyInt (86400 - (t - oldest)) + 1)⟩)
  else (rl2, ⟨true, none, none⟩)

/-- RateLimiter.record_request: unconditionally append the current time to
both buckets of the identity. -/
def record_request (rl : RateLimiter) (u : String) (t : ℚ) : RateLimiter :=
  { rl with
    minute_requests := fun v =>
      if v = u then rl.minute_requests u ++ [t] else rl.minute_requests v
    day_requests := fun v =>
      if v = u then rl.day_requests u ++ [t] else rl.day_requests v }

/-- The dict returned by RateLimiter.get_usage (remaining counts are Python
ints, which may go negative). -/
structure Usage where
  requests_this_minute : ℕ
  requests_today : ℕ
  minute_limit : ℕ
  day_limit : ℕ
  minute_remaining : ℤ
  day_remaining : ℤ
deriving Repr, DecidableEq

/-- RateLimiter.get_usage at current time t: prunes (a side effect on the
stored state), then reports counts and remaining capacity. -/
def get_usage (rl : RateLimiter) (u : String) (t : ℚ) : RateLimiter × Usage :=
  let rl2 := clean_old_requests rl u t
  let m := (rl2.minute_requests u).length
  let d := (rl2.day_requests u).length
  (rl2, ⟨m, d, rl.requests_per_minute, rl.requests_per_day,
    (rl.requests_per_minute : ℤ) - (m : ℤ), (rl.requests_per_day : ℤ) - (d : ℤ)⟩)

/-! ## Analytics aggregator: class Analytics, src/utils/analytics.py -/

/-- Python round(x, 2). Python rounds half to even; this model rounds half
up, which agrees everywhere except at exact midpoints of the third decimal
(no claim depends on that boundary). -/
def pyRound2 (q : ℚ) : ℚ := ((round (q * 100) : ℤ) : ℚ) / 100

/-- State of Analytics. daily_messages keeps, per date, an insertion-ordered
association list user -> count (the inner defaultdict(int)); daily_errors is
date -> count; response_times is the list of (timestamp, duration_ms) pairs. -/
structure Analytics where
  daily_messages : String → List (String × ℕ)
  response_times : List (ℚ × ℚ)
  daily_errors : String → ℕ
  total_messages : ℕ
  total_errors : ℕ

/-- Analytics.__init__: everything empty. -/
def Analytics.empty : Analytics := ⟨fun _ => [], [], fun _ => 0, 0, 0⟩

/-- defaultdict(int) increment on an insertion-ordered association list. -/
def bumpUser : List (String × ℕ) → String → List (String × ℕ)
  | [], u => [(u, 1)]
  | (v, n) :: rest, u =>
    if v = u then (v, n + 1) :: rest else (v, n) :: bumpUser rest u

/-- Analytics.track_message on the given date key. -/
def track_message (a : Analytics) (date u : String) : Analytics :=
  { a with
    daily_messages := fun d =>
      if d = date then bumpUser (a.daily_messages date) u else a.daily_messages d
    total_messages := a.total_messages + 1 }

/-- Analytics.track_response_time at current time t: append the sample, then
keep only samples whose timestamp exceeds t - 86400. -/
def track_response_time (a : Analytics) (t dur : ℚ) : Analytics :=
  { a with
    response_times :=
      (a.response_times ++ [(t, dur)]).filter (fun p => decide (p.1 > t - 86400)) }

/-- Analytics.track_error on the given date key (the error kind is not
bucketed, matching the source). -/
def track_error (a : Analytics) (date : String) : Analytics :=
  { a with
    daily_errors := fun d =>
      if d = date then a.daily_errors date + 1 else a.daily_errors d
    total_errors := a.total_errors + 1 }

/-- The dict returned by Analytics.get_system_stats. -/
structure SystemStats where
  total_messages : ℕ
  messages_today : ℕ
  unique_users_today : ℕ
  total_errors : ℕ
  errors_today : ℕ
  avg_response_time_ms : ℚ
  response_samples : ℕ
deriving Repr, DecidableEq

/-- Analytics.get_system_stats for the given date key. Note: it averages the
stored response_times list as is — no pruning happens here (pruning happens
only inside track_response_time). -/
def get_system_stats (a : Analytics) (date : String) : SystemStats :=
  let avg : ℚ :=
    if a.response_times = [] then 0
    else (a.response_times.map Prod.snd).sum / (a.response_times.length : ℚ)
  { total_messages := a.total_messages
    messages_today := ((a.daily_messages date).map Prod.snd).sum
    unique_users_today := (a.daily_messages date).length
    total_errors := a.total_errors
    errors_today := a.daily_errors date
    avg_response_time_ms := pyRound2 avg
    response_samples := a.response_times.length }

/-- ResponseTimer.__exit__ with start and stop times: always reports the
elapsed milliseconds via track_response_time, and additionally calls
track_error when the scope exited via an exception (exc = some kind).
The exception, if any, is propagated by the caller (return False). -/
def responseTimerExit (a : Analytics) (date : String) (start stop : ℚ)
    (exc : Option String) : Analytics :=
  let a2 := track_response_time a stop ((stop - start) * 1000)
  match exc with
  | some _ => track_error a2 date
  | none => a2

/-! ## AI request orchestrator: class GeminiClient, src/utils/gemini_client.py -/

/-- An apostrophe character, for the user-facing strings. -/
def apos : String := String.mk ['\'']

/-- The module-level SALES_SYSTEM_PROMPT string. -/
def SALES_SYSTEM_PROMPT : String :=
  "You are SalesHub AI, a professional sales assistant for a sales team. Your role is to:\n\n"
  ++ "1. **Help craft compelling communications**: Assist with emails, follow-up messages, LinkedIn outreach, and proposals\n"
  ++ "2. **Provide sales strategies**: Suggest objection handling techniques, closing strategies, and negotiation tips\n"
  ++ "3. **Answer product/service questions**: Help explain features, benefits, and value propositions\n"
  ++ "4. **Lead qualification**: Help with discovery questions and qualifying leads\n"
  ++ "5. **Research assistance**: Help analyze prospects, industries, and competitive landscape\n\n"
  ++ "Guidelines:\n"
  ++ "- Be professional, helpful, and action-oriented\n"
  ++ "- Provide specific, actionable advice (not generic tips)\n"
  ++ "- Use a confident but friendly tone\n"
  ++ "- Keep responses concise but comprehensive\n"
  ++ "- When writing emails or messages, make them ready to send\n"
  ++ "- Focus on value and outcomes, not just features\n"

/-- One history turn rendered in _build_context_prompt's loop. -/
def renderTurn (turn : String × String) : String :=
  if turn.1 = "user" then "User: " ++ turn.2 else "Assistant: " ++ turn.2

/-- Python "\n".join(parts). -/
def joinNL : List String → String
  | [] => ""
  | [x] => x
  | x :: y :: rest => x ++ "\n" ++ joinNL (y :: rest)

/-- GeminiClient._build_context_prompt: the parts list is assembled exactly
as the source appends to it (history truncated with [-10:], context added
only when truthy), then joined with newlines. -/
def build_context_prompt (prompt : String) (history : List (String × String))
    (context : Option String) : String :=
  let parts := [SALES_SYSTEM_PROMPT]
  let parts := if history ≠ [] then
      parts ++ ["\n--- Recent Conversation ---"]
        ++ (history.drop (history.length - 10)).map renderTurn
        ++ ["--- End of History ---\n"]
    else parts
  let parts := match context with
    | some c => if c ≠ "" then parts ++ ["Additional Context: " ++ c ++ "\n"] else parts
    | none => parts
  let parts := parts ++ ["Current User Message: " ++ prompt]
  let parts := parts ++ ["\nProvide a helpful, sales-focused response:"]
  joinNL parts

/-- Bool infix test on character lists (Python `needle in hay`). -/
def listIsInfix (needle : List Char) : List Char → Bool
  | [] => needle.isEmpty
  | c :: tl => needle.isPrefixOf (c :: tl) || listIsInfix needle tl

/-- Python `needle in hay` on strings. -/
def strContains (hay needle : String) : Bool := listIsInfix needle.toList hay.toList

/-- Python str.lower() (ASCII suffices for the checked keywords). -/
def lowerStr (s : String) : String := String.mk (s.toList.map Char.toLower)

/-- The retry condition of _call_api_with_retry (and the first branch of the
error mapping in generate_response): "429" in str(e) or "quota" in
str(e).lower(). -/
def isRetriableError (e : String) : Bool :=
  strContains e "429" || strContains (lowerStr e) "quota"

/-- The second branch of generate_response's error mapping:
"safety" in str(e).lower(). -/
def isSafetyError (e : String) : Bool := strContains (lowerStr e) "safety"

/-- Outcome of _call_api_with_retry: the returned text or the raised
exception, the sleeps performed (seconds), and how many attempts hit the
backend. -/
structure CallOutcome where
  result : Except String String
  sleeps : List ℚ
  attempts : ℕ
deriving Repr

/-- The retry loop of _call_api_with_retry from a given attempt index with
the given remaining loop iterations: on success return; on a retriable
failure sleep retry_delay * 2 ^ attempt and continue (the loop sleeps even
when no iteration remains, then raises the last exception); on any other
failure break and raise. The fuel-0 base case is unreachable from
call_api_with_retry, which starts with fuel 3. -/
def retryFrom (backend : ℕ → Except String String) (retry_delay : ℚ) :
    ℕ → ℕ → CallOutcome
  | _, 0 => ⟨Except.error "", [], 0⟩
  | attempt, fuel + 1 =>
    match backend attempt with
    | Except.ok s => ⟨Except.ok s, [], 1⟩
    | Except.error e =>
      if isRetriableError e then
        let w := retry_delay * 2 ^ attempt
        match fuel with
        | 0 => ⟨Except.error e, [w], 1⟩
        | f + 1 =>
          let rest := retryFrom backend retry_delay (attempt + 1) (f + 1)
          ⟨rest.result, w :: rest.sleeps, rest.attempts + 1⟩
      else ⟨Except.error e, [], 1⟩

/-- GeminiClient._call_api_with_retry: max_retries = 3, retry_delay = 2.
The backend abstracts self.model.generate_content on the already-built
prompt: attempt index to response text or exception string. -/
def call_api_with_retry (backend : ℕ → Except String String) : CallOutcome :=
  retryFrom backend 2 0 3

/-- The uniform result of GeminiClient.generate_response:
{text, tokens_used} (tokens_used is always None in the source;
response_obj is always None and omitted). -/
structure GenResult where
  text : String
  tokens_used : Option ℕ
deriving Repr, DecidableEq

/-- The fixed fallback text returned when Gemini is unavailable. -/
def configFallbackText : String :=
  "Hello! I" ++ apos ++ "m SalesHub AI, your sales assistant. "
  ++ "To enable AI chat features, please configure the Gemini API key. "
  ++ "Get a free API key from https://ai.google.dev/"

/-- The "high demand" error text of generate_response. -/
def highDemandText : String :=
  "I" ++ apos ++ "m currently experiencing high demand. Please wait a moment and try again. "
  ++ "If this persists, your daily API quota may have been reached."

/-- The "rephrase" content-safety error text of generate_response. -/
def safetyText : String :=
  "I couldn" ++ apos ++ "t process that request due to content safety filters. "
  ++ "Please rephrase your question."

/-- The generic "trouble processing" error text of generate_response. -/
def genericErrorText : String :=
  "I apologize, but I" ++ apos ++ "m having trouble processing your request. "
  ++ "Please try again in a moment."

/-- The error-to-text mapping of generate_response's except branch. -/
def errorTextFor (e : String) : String :=
  if isRetriableError e then highDemandText
  else if isSafetyError e then safetyText
  else genericErrorText

/-- GeminiClient.generate_response: short-circuits to the configuration
fallback when unavailable; otherwise builds the full prompt, calls the
backend through the retry wrapper, and maps any raised exception to a
displayable text. Also returns the number of backend attempts made
(0 = no network call). -/
def generate_response (avail : Bool)
    (backend : String → ℕ → Except String String) (prompt : String)
    (context : Option String) (history : List (String × String)) :
    GenResult × ℕ :=
  if avail = false then ({ text := configFallbackText, tokens_used := none }, 0)
  else
    let full_prompt := build_context_prompt prompt history context
    let outcome := call_api_with_retry (backend full_prompt)
    match outcome.result with
    | Except.ok s => ({ text := s, tokens_used := none }, outcome.attempts)
    | Except.error e => ({ text := errorTextFor e, tokens_used := none }, outcome.attempts)

/-- The placeholder value the constructor treats as an unset key. -/
def placeholderKey : String := "your_actual_gemini_api_key_here"

/-- GeminiClient.__init__'s availability flag: false when the key is None,
empty, or the placeholder; otherwise true iff genai initialization
succeeded. -/
def geminiAvailable (apiKey : Option String) (initOk : Bool) : Bool :=
  match apiKey with
  | none => false
  | some k => if k = "" ∨ k = placeholderKey then false else initOk

/-! ## Chat route analytics flow: send_message, src/routes/chat.py -/

/-- The analytics-relevant steps of the send_message route body on its
non-raising path: track_message, then generate_response inside a
ResponseTimer. generate_response catches every backend exception and
returns a record, so the timer scope always exits normally (exc = none)
no matter how the backend behaved; the route then returns success without
touching the error counters. -/
def sendMessageAnalytics (a : Analytics) (date user : String)
    (tStart tStop : ℚ) (avail : Bool)
    (backend : String → ℕ → Except String String) (msg : String)
    (ctx : Option String) (hist : List (String × String)) :
    Analytics × GenResult :=
  let a1 := track_message a date user
  let r := (generate_response avail backend msg ctx hist).1
  let a2 := responseTimerExit a1 date tStart tStop none
  (a2, r)

/-! ## Specification-side decompositions and test harnesses -/

/-- The history part of the assembled prompt, as the specification orders it:
a labeled transcript of the last 10 turns, oldest first, between the two
marker lines (empty when there is no history). -/
def historyBlock (h : List (String × String)) : String :=
  if h = [] then ""
  else "\n--- Recent Conversation ---" ++ "\n"
    ++ joinNL ((h.drop (h.length - 10)).map renderTurn)
    ++ "\n" ++ "--- End of History ---\n" ++ "\n"

/-- The context part of the assembled prompt: a labeled context block when a
nonempty free-form context string is present, empty otherwise. -/
def contextBlock : Option String → String
  | none => ""
  | some c => if c = "" then "" else "Additional Context: " ++ c ++ "\n" ++ "\n"

/-- The rate-limit scenario of the specification: limiter configured with
2/minute and 100/day, identity u1 issues three checks at times t1 t2 t3,
recording after each of the first two (shown admitted) as the live route
does; returns the three check results. -/
def threeChecks (t1 t2 t3 : ℚ) : CheckResult × CheckResult × CheckResult :=
  let rl0 := RateLimiter.init 2 100
  let p1 := check_rate_limit rl0 "u1" t1
  let s1 := record_request p1.1 "u1" t1
  let p2 := check_rate_limit s1 "u1" t2
  let s2 := record_request p2.1 "u1" t2
  let p3 := check_rate_limit s2 "u1" t3
  (p1.2, p2.2, p3.2)

/-- Simulated backend that fails with a quota error twice, then succeeds. -/
def backendQuotaTwice : ℕ → Except String String :=
  fun i => if i < 2 then Except.error "429 quota exceeded" else Except.ok "done"

/-- Simulated backend that always fails with a non-retriable error. -/
def backendBoom : ℕ → Except String String := fun _ => Except.error "boom"

/-- Simulated backend that always fails with a rate-limit error. -/
def backendQuotaAlways : ℕ → Except String String := fun _ => Except.error "429"

/-- A concrete 11-turn conversation history. -/
def elevenTurns : List (String × String) :=
  [("user", "m1"), ("assistant", "m2"), ("user", "m3"), ("assistant", "m4"),
   ("user", "m5"), ("assistant", "m6"), ("user", "m7"), ("assistant", "m8"),
   ("user", "m9"), ("assistant", "m10"), ("user", "m11")]

/-! ## Helper lemmas -/

/-- The Python min of a nonempty list is a member of it. -/
theorem listMin_mem : ∀ (l : List ℚ), l ≠ [] → listMin l ∈ l := by
  intro l hl
  match l with
  | x :: xs =>
    simp only [listMin]
    clear hl
    induction xs generalizing x with
    | nil => simp
    | cons y ys ih =>
      have h := ih (min x y)
      simp only [List.foldl_cons]
      rcases List.mem_cons.mp h with h1 | h1
      · rcases min_cases x y with ⟨he, _⟩ | ⟨he, _⟩ <;> simp [h1.trans he]
      · simp [h1]

/-- check_rate_limit always returns the pruned state, in every branch. -/
theorem check_fst (rl : RateLimiter) (u : String) (t : ℚ) :
    (check_rate_limit rl u t).1 = clean_old_requests rl u t := by
  simp only [check_rate_limit]
  split_ifs <;> rfl

/-- One-step unfolding of the retry loop when iterations remain after this
one and the current attempt fails retriably. -/
theorem retryFrom_step (backend : ℕ → Except String String) (d : ℚ)
    (attempt g : ℕ) (e : String)
    (hb : backend attempt = Except.error e) (hr : isRetriableError e = true) :
    retryFrom backend d attempt (g + 2) =
      ⟨(retryFrom backend d (attempt + 1) (g + 1)).result,
       d * 2 ^ attempt :: (retryFrom backend d (attempt + 1) (g + 1)).sleeps,
       (retryFrom backend d (attempt + 1) (g + 1)).attempts + 1⟩ := by
  conv_lhs => rw [retryFrom]
  rw [hb]
  simp [hr]

/-- The retry loop makes at most `fuel` attempts. -/
theorem retryFrom_attempts_le (backend : ℕ → Except String String) (d : ℚ) :
    ∀ (fuel attempt : ℕ), (retryFrom backend d attempt fuel).attempts ≤ fuel := by
  intro fuel
  induction fuel with
  | zero => intro attempt; simp only [retryFrom]; omega
  | succ f ih =>
    intro attempt
    cases hb : backend attempt with
    | ok s => simp [retryFrom, hb]
    | error e =>
      by_cases hr : isRetriableError e = true
      · cases f with
        | zero => simp [retryFrom, hb, hr]
        | succ g =>
          have h1 := ih (attempt + 1)
          rw [retryFrom_step backend d attempt g e hb hr]
          simp only []
          omega
      · simp [retryFrom, hb, hr]

/-- Two retriable failures followed by a success: the success is returned
after sleeps of 2 s and 4 s. -/
theorem retry_quota_twice_then_ok (backend : ℕ → Except String String)
    (e0 e1 s : String)
    (hb0 : backend 0 = Except.error e0) (hr0 : isRetriableError e0 = true)
    (hb1 : backend 1 = Except.error e1) (hr1 : isRetriableError e1 = true)
    (hb2 : backend 2 = Except.ok s) :
    call_api_with_retry backend = ⟨Except.ok s, [2, 4], 3⟩ := by
  simp [call_api_with_retry, retryFrom, hb0, hr0, hb1, hr1, hb2]
  norm_num

/-- A non-retriable failure at attempt k (after retriable ones) aborts
immediately: the error raises with no further attempts and no extra sleep. -/
theorem retry_abort_non_retriable (backend : ℕ → Except String String)
    (k : ℕ) (e : String) (hk : k < 3)
    (hpre : ∀ i, i < k → ∃ ei, backend i = Except.error ei ∧ isRetriableError ei = true)
    (hke : backend k = Except.error e) (hnr : isRetriableError e = false) :
    call_api_with_retry backend =
      ⟨Except.error e, (List.range k).map (fun i => (2 : ℚ) * 2 ^ i), k + 1⟩ := by
  interval_cases k
  · simp [call_api_with_retry, retryFrom, hke, hnr]
  · obtain ⟨e0, hb0, hr0⟩ := hpre 0 (by omega)
    simp [call_api_with_retry, retryFrom, hb0, hr0, hke, hnr, List.range_succ]
  · obtain ⟨e0, hb0, hr0⟩ := hpre 0 (by omega)
    obtain ⟨e1, hb1, hr1⟩ := hpre 1 (by omega)
    simp [call_api_with_retry, retryFrom, hb0, hr0, hb1, hr1, hke, hnr, List.range_succ]

/-- Three retriable failures exhaust the attempts; the last error raises
(after the loop also slept 8 s following the final failure). -/
theorem retry_exhausted_last_error (backend : ℕ → Except String String)
    (e0 e1 e2 : String)
    (hb0 : backend 0 = Except.error e0) (hr0 : isRetriableError e0 = true)
    (hb1 : backend 1 = Except.error e1) (hr1 : isRetriableError e1 = true)
    (hb2 : backend 2 = Except.error e2) (hr2 : isRetriableError e2 = true) :
    call_api_with_retry backend = ⟨Except.error e2, [2, 4, 8], 3⟩ := by
  simp [call_api_with_retry, retryFrom, hb0, hr0, hb1, hr1, hb2, hr2]
  norm_num

/-- joinNL on a cons with a nonempty tail. -/
theorem joinNL_cons : ∀ (z : String) (zs : List String), zs ≠ [] →
    joinNL (z :: zs) = z ++ "\n" ++ joinNL zs := by
  intro z zs hzs
  cases zs with
  | nil => exact absurd rfl hzs
  | cons y ys => rfl

/-- Joining a concatenation of two nonempty parts lists. -/
theorem joinNL_append : ∀ xs ys : List String, xs ≠ [] → ys ≠ [] →
    joinNL (xs ++ ys) = joinNL xs ++ "\n" ++ joinNL ys := by
  intro xs
  induction xs with
  | nil => intro ys h hy; exact absurd rfl h
  | cons x xs ih =>
    intro ys hx hy
    cases xs with
    | nil =>
      cases ys with
      | nil => exact absurd rfl hy
      | cons y ys2 => simp [joinNL]
    | cons x2 xs2 =>
      have step := ih ys (by simp) hy
      have e1 : (x :: x2 :: xs2) ++ ys = x :: ((x2 :: xs2) ++ ys) := by simp
      rw [e1]
      rw [joinNL_cons _ _ (by simp), joinNL_cons _ _ (by simp), step]
      simp [String.append_assoc]

/-- The assembled prompt decomposes into the five ordered parts of the
specification: system block, history transcript, context block, current
user message, closing instruction line. -/
theorem build_context_prompt_decomp :
    ∀ (m : String) (h : List (String × String)) (c : Option String),
    build_context_prompt m h c =
      SALES_SYSTEM_PROMPT ++ "\n" ++ historyBlock h ++ contextBlock c
      ++ ("Current User Message: " ++ m) ++ "\n"
      ++ "\nProvide a helpful, sales-focused response:" := by
  intro m h c
  by_cases hh : h = []
  · subst hh
    match c with
    | none =>
      simp [build_context_prompt, historyBlock, contextBlock, joinNL, String.append_assoc]
    | some cs =>
      by_cases hc : cs = ""
      · subst hc
        simp [build_context_prompt, historyBlock, contextBlock, joinNL, String.append_assoc]
      · simp [build_context_prompt, historyBlock, contextBlock, hc, joinNL, String.append_assoc]
  · have hpos : 0 < h.length := List.length_pos.mpr hh
    have hmap : (h.drop (h.length - 10)).map renderTurn ≠ [] := by
      intro hcon
      have hc2 := congrArg List.length hcon
      rw [List.length_map, List.length_drop] at hc2
      simp at hc2
      omega
    have hhb : historyBlock h = "\n--- Recent Conversation ---" ++ "\n"
        ++ joinNL ((h.drop (h.length - 10)).map renderTurn)
        ++ "\n" ++ "--- End of History ---\n" ++ "\n" := by
      rw [historyBlock, if_neg hh]
    have hmerge : ∀ X : String,
        "\n" ++ ("--- End of History ---\n\n" ++ X) = "\n--- End of History ---\n\n" ++ X := by
      intro X
      rw [← String.append_assoc]
      simp
    match c with
    | none =>
      simp only [build_context_prompt, if_pos hh, ne_eq, not_false_eq_true, if_true]
      simp only [List.append_assoc, List.singleton_append, List.cons_append, List.nil_append]
      rw [joinNL_cons _ _ (by simp), joinNL_cons _ _ (by simp),
        joinNL_append _ _ hmap (by simp), joinNL_cons _ _ (by simp)]
      simp only [joinNL]
      rw [hhb, contextBlock]
      simp [String.append_assoc]
      rw [hmerge]
    | some cs =>
      by_cases hc : cs = ""
      · subst hc
        simp only [build_context_prompt, if_pos hh, ne_eq, not_false_eq_true, if_true,
          not_true, if_false]
        simp only [List.append_assoc, List.singleton_append, List.cons_append, List.nil_append]
        rw [joinNL_cons _ _ (by simp), joinNL_cons _ _ (by simp),
          joinNL_append _ _ hmap (by simp), joinNL_cons _ _ (by simp)]
        simp only [joinNL]
        rw [hhb]
        simp [contextBlock, String.append_assoc]
        rw [hmerge]
      · simp only [build_context_prompt, if_pos hh, ne_eq, not_false_eq_true, if_true]
        rw [if_pos hc]
        simp only [List.append_assoc, List.singleton_append, List.cons_append, List.nil_append]
        rw [joinNL_cons _ _ (by simp), joinNL_cons _ _ (by simp),
          joinNL_append _ _ hmap (by simp), joinNL_cons _ _ (by simp)]
        simp only [joinNL]
        rw [hhb]
        simp [contextBlock, hc, String.append_assoc]
        rw [hmerge]

/-! ## Claims -/

/-- Claim C1, counterexample: a call whose backend fails with a quota error
(the returned text is the high-demand fallback, so the call failed) leaves
both total_errors and the daily error counter at 0 — the error counter is
incremented zero times, not exactly once. -/
theorem chat_failure_error_count_counterexample :
    ((sendMessageAnalytics Analytics.empty "2026-02-03" "u1" 0 1 true
        (fun _ _ => Except.error "429") "hi" none []).2.text = highDemandText) ∧
    ((sendMessageAnalytics Analytics.empty "2026-02-03" "u1" 0 1 true
        (fun _ _ => Except.error "429") "hi" none []).1.total_errors = 0) ∧
    ((sendMessageAnalytics Analytics.empty "2026-02-03" "u1" 0 1 true
        (fun _ _ => Except.error "429") "hi" none []).1.daily_errors "2026-02-03" = 0) ∧
    Analytics.empty.total_errors + 1 ≠ 0 :=
  ⟨rfl, rfl, rfl, by simp [Analytics.empty]⟩

/-- Claim C1, amended: a failing backend call does not increment the
Analytics error counter at all. generate_response converts every backend
failure into fallback text before the ResponseTimer scope exits, so the
timer records no error and the route path leaves daily_errors (every date)
and total_errors unchanged, whatever the backend did. -/
theorem chat_failure_error_count_zero :
    ∀ (a : Analytics) (date user : String) (tStart tStop : ℚ) (avail : Bool)
      (backend : String → ℕ → Except String String) (msg : String)
      (ctx : Option String) (hist : List (String × String)) (d : String),
      (sendMessageAnalytics a date user tStart tStop avail backend msg ctx hist).1.total_errors
        = a.total_errors ∧
      (sendMessageAnalytics a date user tStart tStop avail backend msg ctx hist).1.daily_errors d
        = a.daily_errors d := by
  intro a date user tStart tStop avail backend msg ctx hist d
  simp [sendMessageAnalytics, responseTimerExit, track_response_time, track_message]

/-- Claim C2, counterexample: with limits 2/minute and 100/day, three checks
within 1 second (all at the same clock reading, which "within 1 second"
admits) give admitted, admitted, rejected — but the third check's
retry_after is 61, outside the claimed range 1..60. -/
theorem rate_limit_scenario_counterexample :
    ((threeChecks 0 0 0).1.allowed = true) ∧
    ((threeChecks 0 0 0).2.1.allowed = true) ∧
    ((threeChecks 0 0 0).2.2.allowed = false) ∧
    ((threeChecks 0 0 0).2.2.retry_after = some 61) ∧
    ¬((61 : ℤ) ≤ 60) := by
  refine ⟨?_, ?_, ?_, ?_, by omega⟩ <;>
  simp [threeChecks, check_rate_limit, clean_old_requests, record_request,
    RateLimiter.init, listMin, pyInt, List.filter]

/-- Claim C2, amended: when an identity's pruned minute bucket is full
(at least N in-window timestamps, bucket nonempty), check rejects with
retry_after at least 1; in the 2/minute scenario, three checks within
1 second give admitted, admitted, rejected with retry_after between 1 and
61 — and between 1 and 60 whenever the third check is strictly later than
the first admission (61 occurs only when they carry the same timestamp). -/
theorem rate_limit_rejection_retry_after :
    (∀ (rl : RateLimiter) (u : String) (t : ℚ),
      (clean_old_requests rl u t).minute_requests u ≠ [] →
      rl.requests_per_minute ≤ ((clean_old_requests rl u t).minute_requests u).length →
      (check_rate_limit rl u t).2.allowed = false ∧
      ∃ z, (check_rate_limit rl u t).2.retry_after = some z ∧ 1 ≤ z) ∧
    (∀ t1 t2 t3 : ℚ, t1 ≤ t2 → t2 ≤ t3 → t3 - t1 ≤ 1 →
      (threeChecks t1 t2 t3).1.allowed = true ∧
      (threeChecks t1 t2 t3).2.1.allowed = true ∧
      (threeChecks t1 t2 t3).2.2.allowed = false ∧
      ∃ z, (threeChecks t1 t2 t3).2.2.retry_after = some z ∧
        1 ≤ z ∧ z ≤ 61 ∧ (t1 < t3 → z ≤ 60)) := by
  constructor
  · intro rl u t hne hfull
    have hmem := listMin_mem _ hne
    have hcl : (clean_old_requests rl u t).minute_requests u =
        (rl.minute_requests u).filter (fun ts => decide (ts > t - 60)) := by
      simp [clean_old_requests]
    rw [hcl, List.mem_filter] at hmem
    have hold : listMin ((clean_old_requests rl u t).minute_requests u) > t - 60 := by
      have := hmem.2
      simp only [decide_eq_true_eq] at this
      simpa [hcl] using this
    have hq : (0 : ℚ) ≤ 60 - (t - listMin ((clean_old_requests rl u t).minute_requests u)) := by
      linarith
    constructor
    · simp only [check_rate_limit]
      rw [if_pos hfull]
    · refine ⟨pyInt (60 - (t - listMin ((clean_old_requests rl u t).minute_requests u))) + 1,
        ?_, ?_⟩
      · simp only [check_rate_limit]
        rw [if_pos hfull]
      · have h0 : (0 : ℤ) ≤
            pyInt (60 - (t - listMin ((clean_old_requests rl u t).minute_requests u))) := by
          rw [pyInt, if_pos hq]
          exact Int.le_floor.mpr (by exact_mod_cast hq)
        omega
  · intro t1 t2 t3 h12 h23 h31
    have k1 : decide (t1 > t2 - 60) = true := decide_eq_true (by linarith)
    have k2 : decide (t1 > t2 - 86400) = true := decide_eq_true (by linarith)
    have k3 : decide (t1 > t3 - 60) = true := decide_eq_true (by linarith)
    have k4 : decide (t2 > t3 - 60) = true := decide_eq_true (by linarith)
    have k5 : decide (t1 > t3 - 86400) = true := decide_eq_true (by linarith)
    have k6 : decide (t2 > t3 - 86400) = true := decide_eq_true (by linarith)
    refine ⟨?_, ?_, ?_, ?_⟩
    · simp [threeChecks, check_rate_limit, clean_old_requests, RateLimiter.init, List.filter]
    · simp [threeChecks, check_rate_limit, clean_old_requests, record_request,
        RateLimiter.init, List.filter, k1, k2]
    · simp [threeChecks, check_rate_limit, clean_old_requests, record_request,
        RateLimiter.init, List.filter, k1, k2, k3, k4, k5, k6, listMin]
    · refine ⟨pyInt (60 - (t3 - min t1 t2)) + 1, ?_, ?_, ?_, ?_⟩
      · simp [threeChecks, check_rate_limit, clean_old_requests, record_request,
          RateLimiter.init, List.filter, k1, k2, k3, k4, k5, k6, listMin]
      · rw [min_eq_left h12, pyInt, if_pos (by linarith)]
        have hf : (59 : ℤ) ≤ ⌊60 - (t3 - t1)⌋ := Int.le_floor.mpr (by push_cast; linarith)
        omega
      · rw [min_eq_left h12, pyInt, if_pos (by linarith)]
        have hf : ⌊60 - (t3 - t1)⌋ ≤ (60 : ℤ) := Int.floor_le_iff.mpr (by push_cast; linarith)
        omega
      · intro hlt
        rw [min_eq_left h12, pyInt, if_pos (by linarith)]
        have hf : ⌊60 - (t3 - t1)⌋ < (60 : ℤ) := Int.floor_lt.mpr (by push_cast; linarith)
        omega

/-- Witness for C2's amended theorem at concrete inputs: a limiter of
1/minute whose identity already holds one fresh timestamp rejects with
retry_after at least 1, and the 2/minute scenario at times 0, 0, 1. -/
theorem rate_limit_rejection_retry_after_witness :
    ((check_rate_limit ⟨1, 100, fun _ => [0], fun _ => [0]⟩ "u" 0).2.allowed = false ∧
      ∃ z, (check_rate_limit ⟨1, 100, fun _ => [0], fun _ => [0]⟩ "u" 0).2.retry_after
        = some z ∧ 1 ≤ z) ∧
    ((threeChecks 0 0 1).1.allowed = true ∧
      (threeChecks 0 0 1).2.1.allowed = true ∧
      (threeChecks 0 0 1).2.2.allowed = false ∧
      ∃ z, (threeChecks 0 0 1).2.2.retry_after = some z ∧
        1 ≤ z ∧ z ≤ 61 ∧ ((0 : ℚ) < 1 → z ≤ 60)) :=
  ⟨rate_limit_rejection_retry_after.1 ⟨1, 100, fun _ => [0], fun _ => [0]⟩ "u" 0
      (by simp [clean_old_requests]) (by simp [clean_old_requests]),
    rate_limit_rejection_retry_after.2 0 0 1 (by norm_num) (by norm_num) (by norm_num)⟩

/-- Claim C3, counterexample: one sample recorded at time 0 with duration
100 ms; at read time 90000 s (25 h later) no sample lies in the trailing
24 h window, yet get_system_stats still reports 1 sample and average 100 —
the 25-hour-old sample affects both outputs because get_system_stats never
prunes. -/
theorem avg_response_time_stale_counterexample :
    ((get_system_stats (track_response_time Analytics.empty 0 100) "d").response_samples = 1) ∧
    ((get_system_stats (track_response_time Analytics.empty 0 100) "d").avg_response_time_ms
      = 100) ∧
    (((track_response_time Analytics.empty 0 100).response_times.filter
        (fun p => decide (p.1 > (90000 : ℚ) - 86400))).length = 0) ∧
    (1 : ℕ) ≠ 0 := by
  refine ⟨?_, ?_, ?_, by omega⟩
  · simp [get_system_stats, track_response_time, Analytics.empty, List.filter]
  · simp [get_system_stats, track_response_time, Analytics.empty, List.filter, pyRound2]
    norm_num
  · simp [track_response_time, Analytics.empty, List.filter]
    norm_num

/-- Claim C3, amended: pruning of response-time samples happens at recording
time, not at read time. After track_response_time at time t every retained
sample lies within the trailing 24 h of t, and get_system_stats reports
exactly the samples retained as of that last recording; a sample older than
24 h at read time still affects the result unless a later
track_response_time call has pruned it. -/
theorem avg_response_time_pruning :
    ∀ (a : Analytics) (t dur : ℚ) (d : String),
      (∀ p ∈ (track_response_time a t dur).response_times, p.1 > t - 86400) ∧
      (get_system_stats (track_response_time a t dur) d).response_samples =
        ((a.response_times ++ [(t, dur)]).filter
          (fun p => decide (p.1 > t - 86400))).length := by
  intro a t dur d
  constructor
  · intro p hp
    simp only [track_response_time, List.mem_filter, decide_eq_true_eq] at hp
    exact hp.2
  · simp [get_system_stats, track_response_time]

/-- Witness for C3's amended theorem: recording a sample at time 0 into the
empty analytics retains it (its timestamp is within 24 h of the recording
time) and stats report exactly the one filtered sample. -/
theorem avg_response_time_pruning_witness :
    ((0 : ℚ) > 0 - 86400) ∧
    (get_system_stats (track_response_time Analytics.empty 0 100) "d").response_samples =
      ((Analytics.empty.response_times ++ [((0 : ℚ), (100 : ℚ))]).filter
        (fun p => decide (p.1 > (0 : ℚ) - 86400))).length :=
  ⟨(avg_response_time_pruning Analytics.empty 0 100 "d").1 (0, 100)
      (by simp [track_response_time, Analytics.empty, List.filter]),
    (avg_response_time_pruning Analytics.empty 0 100 "d").2⟩

/-- Claim C4: the AI call wrapper makes at most 3 attempts; a quota failure
at attempt i is followed by a sleep of 2 * 2 ^ i seconds; a quota-quota-
success backend returns the success after exactly two sleeps of 2 s then
4 s (ratio 1:2); any non-retriable failure aborts immediately with no
further attempts; when all attempts fail retriably the last error is raised
to the caller. -/
theorem retry_policy :
    (∀ backend : ℕ → Except String String, (call_api_with_retry backend).attempts ≤ 3) ∧
    (∀ (backend : ℕ → Except String String) (e0 e1 s : String),
      backend 0 = Except.error e0 → isRetriableError e0 = true →
      backend 1 = Except.error e1 → isRetriableError e1 = true →
      backend 2 = Except.ok s →
      call_api_with_retry backend = ⟨Except.ok s, [2, 4], 3⟩) ∧
    (∀ (backend : ℕ → Except String String) (k : ℕ) (e : String), k < 3 →
      (∀ i, i < k → ∃ ei, backend i = Except.error ei ∧ isRetriableError ei = true) →
      backend k = Except.error e → isRetriableError e = false →
      call_api_with_retry backend =
        ⟨Except.error e, (List.range k).map (fun i => (2 : ℚ) * 2 ^ i), k + 1⟩) ∧
    (∀ (backend : ℕ → Except String String) (e0 e1 e2 : String),
      backend 0 = Except.error e0 → isRetriableError e0 = true →
      backend 1 = Except.error e1 → isRetriableError e1 = true →
      backend 2 = Except.error e2 → isRetriableError e2 = true →
      call_api_with_retry backend = ⟨Except.error e2, [2, 4, 8], 3⟩) := by
  refine ⟨?_, ?_, ?_, ?_⟩
  · intro backend
    exact retryFrom_attempts_le backend 2 3 0
  · intro backend e0 e1 s hb0 hr0 hb1 hr1 hb2
    exact retry_quota_twice_then_ok backend e0 e1 s hb0 hr0 hb1 hr1 hb2
  · intro backend k e hk hpre hke hnr
    exact retry_abort_non_retriable backend k e hk hpre hke hnr
  · intro backend e0 e1 e2 hb0 hr0 hb1 hr1 hb2 hr2
    exact retry_exhausted_last_error backend e0 e1 e2 hb0 hr0 hb1 hr1 hb2 hr2

/-- Witness for C4 at concrete backends: quota-twice-then-success returns
the success after sleeps [2, 4]; an immediately non-retriable backend
raises at once with no sleeps; an always-quota backend exhausts all three
attempts and raises the last error. -/
theorem retry_policy_witness :
    (call_api_with_retry backendQuotaTwice = ⟨Except.ok "done", [2, 4], 3⟩) ∧
    (call_api_with_retry backendBoom = ⟨Except.error "boom", [], 1⟩) ∧
    (call_api_with_retry backendQuotaAlways = ⟨Except.error "429", [2, 4, 8], 3⟩) :=
  ⟨retry_policy.2.1 backendQuotaTwice "429 quota exceeded" "429 quota exceeded" "done"
      rfl (by decide) rfl (by decide) rfl,
    retry_policy.2.2.1 backendBoom 0 "boom" (by omega)
      (by intro i hi; omega) rfl (by decide),
    retry_policy.2.2.2 backendQuotaAlways "429" "429" "429"
      rfl (by decide) rfl (by decide) rfl (by decide)⟩

/-- Claim C5: generate_response never propagates a backend exception — for
every input it returns a record whose text is a displayable string (the
configuration fallback, the backend's successful text, or one of the three
fixed error texts), and when the underlying call ultimately fails the error
maps to the high-demand text for quota/rate errors, the rephrase text for
content-safety rejections, and the generic trouble-processing text for
everything else, always with tokens_used = none. -/
theorem generate_failure_mapping :
    (∀ (backend : String → ℕ → Except String String) (msg : String)
        (ctx : Option String) (hist : List (String × String)) (e : String),
      (call_api_with_retry (backend (build_context_prompt msg hist ctx))).result
          = Except.error e →
      (generate_response true backend msg ctx hist).1 = ⟨errorTextFor e, none⟩) ∧
    (∀ e : String, isRetriableError e = true → errorTextFor e = highDemandText) ∧
    (∀ e : String, isRetriableError e = false → isSafetyError e = true →
      errorTextFor e = safetyText) ∧
    (∀ e : String, isRetriableError e = false → isSafetyError e = false →
      errorTextFor e = genericErrorText) ∧
    (∀ (avail : Bool) (backend : String → ℕ → Except String String) (msg : String)
        (ctx : Option String) (hist : List (String × String)),
      (generate_response avail backend msg ctx hist).1.tokens_used = none) ∧
    (∀ (avail : Bool) (backend : String → ℕ → Except String String) (msg : String)
        (ctx : Option String) (hist : List (String × String)),
      (generate_response avail backend msg ctx hist).1.text = configFallbackText ∨
      (∃ s, (generate_response avail backend msg ctx hist).1.text = s ∧
        (call_api_with_retry (backend (build_context_prompt msg hist ctx))).result
          = Except.ok s) ∨
      (generate_response avail backend msg ctx hist).1.text = highDemandText ∨
      (generate_response avail backend msg ctx hist).1.text = safetyText ∨
      (generate_response avail backend msg ctx hist).1.text = genericErrorText) := by
  refine ⟨?_, ?_, ?_, ?_, ?_, ?_⟩
  · intro backend msg ctx hist e he
    simp [generate_response, he]
  · intro e h; simp [errorTextFor, h]
  · intro e h1 h2; simp [errorTextFor, h1, h2]
  · intro e h1 h2; simp [errorTextFor, h1, h2]
  · intro avail backend msg ctx hist
    cases avail with
    | false => simp [generate_response]
    | true =>
      simp only [generate_response]
      cases h : (call_api_with_retry (backend (build_context_prompt msg hist ctx))).result <;>
        simp [h]
  · intro avail backend msg ctx hist
    cases avail with
    | false => left; simp [generate_response]
    | true =>
      cases h : (call_api_with_retry (backend (build_context_prompt msg hist ctx))).result with
      | ok s =>
        right; left
        exact ⟨s, by simp [generate_response, h], rfl⟩
      | error e =>
        right; right
        have he : (generate_response true backend msg ctx hist).1.text = errorTextFor e := by
          simp [generate_response, h]
        rw [he, errorTextFor]
        by_cases h1 : isRetriableError e = true
        · simp [h1]
        · simp only [h1]
          by_cases h2 : isSafetyError e = true
          · simp [h2, errorTextFor, h1]
          · simp [h2, errorTextFor, h1]

/-- Witness for C5 at a concrete failing backend: a backend raising
"safety violation" makes generate_response return the rephrase text with
tokens_used = none, and the three mapping branches evaluate on concrete
error strings. -/
theorem generate_failure_mapping_witness :
    ((generate_response true (fun _ _ => Except.error "safety violation") "hi" none []).1
      = ⟨errorTextFor "safety violation", none⟩) ∧
    (errorTextFor "429 quota" = highDemandText) ∧
    (errorTextFor "safety violation" = safetyText) ∧
    (errorTextFor "boom" = genericErrorText) :=
  ⟨generate_failure_mapping.1 (fun _ _ => Except.error "safety violation") "hi" none []
      "safety violation" rfl,
    generate_failure_mapping.2.1 "429 quota" (by decide),
    generate_failure_mapping.2.2.1 "safety violation" (by decide) (by decide),
    generate_failure_mapping.2.2.2.1 "boom" (by decide) (by decide)⟩

/-- Claim C6: whenever the pruned minute bucket holds fewer than N
timestamps and the pruned day bucket fewer than M, check admits with
message and retry_after both none; in particular (N, M positive, as an
instance of the guarded statement) an identity with empty buckets is
admitted. -/
theorem check_admits_under_limits :
    (∀ (rl : RateLimiter) (u : String) (t : ℚ),
      ((clean_old_requests rl u t).minute_requests u).length < rl.requests_per_minute →
      ((clean_old_requests rl u t).day_requests u).length < rl.requests_per_day →
      check_rate_limit rl u t = (clean_old_requests rl u t, ⟨true, none, none⟩)) ∧
    (∀ (rl : RateLimiter) (u : String) (t : ℚ),
      rl.minute_requests u = [] → rl.day_requests u = [] →
      0 < rl.requests_per_minute → 0 < rl.requests_per_day →
      (check_rate_limit rl u t).2 = ⟨true, none, none⟩) := by
  constructor
  · intro rl u t h1 h2
    simp only [check_rate_limit]
    rw [if_neg (by omega), if_neg (by omega)]
  · intro rl u t hm hd h1 h2
    have e1 : ((clean_old_requests rl u t).minute_requests u) = [] := by
      simp [clean_old_requests, hm]
    have e2 : ((clean_old_requests rl u t).day_requests u) = [] := by
      simp [clean_old_requests, hd]
    simp only [check_rate_limit]
    rw [if_neg (by rw [e1]; simp; omega), if_neg (by rw [e2]; simp; omega)]

/-- Witness for C6: the freshly constructed default limiter (20/500) admits
the first check of an identity, both via the general bound and via the
empty-bucket instance. -/
theorem check_admits_under_limits_witness :
    (check_rate_limit (RateLimiter.init 20 500) "u" 0
      = (clean_old_requests (RateLimiter.init 20 500) "u" 0, ⟨true, none, none⟩)) ∧
    ((check_rate_limit (RateLimiter.init 20 500) "u" 0).2 = ⟨true, none, none⟩) :=
  ⟨check_admits_under_limits.1 (RateLimiter.init 20 500) "u" 0
      (by simp [clean_old_requests, RateLimiter.init])
      (by simp [clean_old_requests, RateLimiter.init]),
    check_admits_under_limits.2 (RateLimiter.init 20 500) "u" 0 rfl rfl
      (by simp [RateLimiter.init]) (by simp [RateLimiter.init])⟩

/-- Claim C7: at the moment a count is evaluated by check or usage, the
stored window collections contain only in-window timestamps (stale entries
are removed before counting); the reported minute count is exactly the
number of in-window timestamps; and if all of an identity's timestamps are
older than 60 s the reported minute count is 0 regardless of the day
bucket. -/
theorem windows_pruned_at_read :
    (∀ (rl : RateLimiter) (u : String) (t ts : ℚ),
      ts ∈ ((get_usage rl u t).1.minute_requests u) → t - ts < 60) ∧
    (∀ (rl : RateLimiter) (u : String) (t ts : ℚ),
      ts ∈ ((get_usage rl u t).1.day_requests u) → t - ts < 86400) ∧
    (∀ (rl : RateLimiter) (u : String) (t ts : ℚ),
      ts ∈ ((check_rate_limit rl u t).1.minute_requests u) → t - ts < 60) ∧
    (∀ (rl : RateLimiter) (u : String) (t ts : ℚ),
      ts ∈ ((check_rate_limit rl u t).1.day_requests u) → t - ts < 86400) ∧
    (∀ (rl : RateLimiter) (u : String) (t : ℚ),
      (get_usage rl u t).2.requests_this_minute =
        ((rl.minute_requests u).filter (fun ts => decide (ts > t - 60))).length) ∧
    (∀ (rl : RateLimiter) (u : String) (t : ℚ),
      (∀ ts ∈ rl.minute_requests u, t - ts > 60) →
      (get_usage rl u t).2.requests_this_minute = 0) := by
  refine ⟨?_, ?_, ?_, ?_, ?_, ?_⟩
  · intro rl u t ts h
    simp [get_usage, clean_old_requests] at h
    linarith [h.2]
  · intro rl u t ts h
    simp [get_usage, clean_old_requests] at h
    linarith [h.2]
  · intro rl u t ts h
    rw [check_fst] at h
    simp [clean_old_requests] at h
    linarith [h.2]
  · intro rl u t ts h
    rw [check_fst] at h
    simp [clean_old_requests] at h
    linarith [h.2]
  · intro rl u t
    simp [get_usage, clean_old_requests]
  · intro rl u t h
    have hnil : (rl.minute_requests u).filter (fun ts => decide (ts > t - 60)) = [] := by
      rw [List.filter_eq_nil_iff]
      intro ts hts
      have := h ts hts
      simp only [decide_eq_true_eq]
      push_neg
      linarith
    simp [get_usage, clean_old_requests, hnil]

/-- Witness for C7: an identity with one timestamp 5 at read time 10 keeps
it in the pruned minute bucket (age below 60 s), and an identity whose only
timestamp is 100 s old reports a minute count of 0. -/
theorem windows_pruned_at_read_witness :
    ((10 : ℚ) - 5 < 60) ∧
    ((get_usage ⟨20, 500, fun _ => [-100], fun _ => [-100]⟩ "u" 0).2.requests_this_minute
      = 0) :=
  ⟨windows_pruned_at_read.1 ⟨20, 500, fun _ => [5], fun _ => [5]⟩ "u" 10 5
      (by
        have hd : decide ((5 : ℚ) > 10 - 60) = true := decide_eq_true (by norm_num)
        simp [get_usage, clean_old_requests, List.filter, hd]),
    windows_pruned_at_read.2.2.2.2.2 ⟨20, 500, fun _ => [-100], fun _ => [-100]⟩ "u" 0
      (by intro ts hts; simp at hts; rw [hts]; norm_num)⟩

/-- Claim C8: prompt assembly is a deterministic function of message,
history and context; the prompt decomposes, in order, into the fixed system
block, the labeled history transcript, the labeled context block, the
current user message and the closing instruction line; any history longer
than 10 turns contributes exactly its last 10 turns (order preserved,
oldest first), so dropping all but the most recent 10 turns leaves the
prompt unchanged, and the retained turns are precisely the most recent 10. -/
theorem prompt_assembly :
    (∀ (m1 : String) (h1 : List (String × String)) (c1 : Option String)
        (m2 : String) (h2 : List (String × String)) (c2 : Option String),
      m1 = m2 → h1 = h2 → c1 = c2 →
      build_context_prompt m1 h1 c1 = build_context_prompt m2 h2 c2) ∧
    (∀ (m : String) (h : List (String × String)) (c : Option String),
      build_context_prompt m h c =
        SALES_SYSTEM_PROMPT ++ "\n" ++ historyBlock h ++ contextBlock c
        ++ ("Current User Message: " ++ m) ++ "\n"
        ++ "\nProvide a helpful, sales-focused response:") ∧
    (∀ (m : String) (h : List (String × String)) (c : Option String),
      10 < h.length →
      build_context_prompt m h c = build_context_prompt m (h.drop (h.length - 10)) c) ∧
    (∀ h : List (String × String),
      h.drop (h.length - 10) = (h.reverse.take 10).reverse) := by
  refine ⟨?_, build_context_prompt_decomp, ?_, ?_⟩
  · intro m1 h1 c1 m2 h2 c2 hm hh hc
    rw [hm, hh, hc]
  · intro m h c hlen
    have h10 : (h.drop (h.length - 10)).length = 10 := by
      rw [List.length_drop]; omega
    have hb : historyBlock (h.drop (h.length - 10)) = historyBlock h := by
      rw [historyBlock, historyBlock,
        if_neg (by intro hcon; rw [hcon] at h10; simp at h10),
        if_neg (by intro hcon; rw [hcon] at hlen; simp at hlen)]
      rw [h10]
      simp
    rw [build_context_prompt_decomp, build_context_prompt_decomp, hb]
  · intro h
    rw [List.take_reverse]
    simp

/-- Witness for C8: determinism applied at equal concrete inputs, and the
truncation property applied to a concrete 11-turn history — only its last
10 turns matter. -/
theorem prompt_assembly_witness :
    (build_context_prompt "hi" [("user", "a")] none
      = build_context_prompt "hi" [("user", "a")] none) ∧
    (build_context_prompt "x" elevenTurns none
      = build_context_prompt "x" (elevenTurns.drop (elevenTurns.length - 10)) none) :=
  ⟨prompt_assembly.1 "hi" [("user", "a")] none "hi" [("user", "a")] none rfl rfl rfl,
    prompt_assembly.2.2.1 "x" elevenTurns none (by simp [elevenTurns])⟩

/-- Claim C9: when the backend credential is absent (None, empty, or the
placeholder) the availability flag — a plain queryable boolean — is false
at construction, and for every input generate_response short-circuits to
the fixed configuration-fallback text with tokens_used = none and zero
backend attempts (no network call). -/
theorem unavailable_short_circuit :
    (∀ initOk : Bool, geminiAvailable none initOk = false ∧
      geminiAvailable (some "") initOk = false ∧
      geminiAvailable (some placeholderKey) initOk = false) ∧
    (∀ (backend : String → ℕ → Except String String) (msg : String)
        (ctx : Option String) (hist : List (String × String)),
      generate_response false backend msg ctx hist
        = ({ text := configFallbackText, tokens_used := none }, 0)) := by
  constructor
  · intro initOk
    refine ⟨rfl, by simp [geminiAvailable], by simp [geminiAvailable]⟩
  · intro backend msg ctx hist
    simp [generate_response]

/-- Claim C10: record_request appends to both buckets unconditionally
(independently of any check), so recording more often than the limits allow
makes usage report counts above the configured limits and negative
remaining capacity: with limits 2/minute and 3/day, four records within one
instant yield counts of 4 and remainders -2 and -1. -/
theorem record_unconditional_overflow :
    (∀ (rl : RateLimiter) (u : String) (t : ℚ),
      (record_request rl u t).minute_requests u = rl.minute_requests u ++ [t] ∧
      (record_request rl u t).day_requests u = rl.day_requests u ++ [t]) ∧
    ((get_usage (record_request (record_request (record_request (record_request
        (RateLimiter.init 2 3) "u1" 0) "u1" 0) "u1" 0) "u1" 0) "u1" 0).2
      = ⟨4, 4, 2, 3, -2, -1⟩) ∧
    ((2 : ℕ) < 4 ∧ (3 : ℕ) < 4 ∧ (-2 : ℤ) < 0 ∧ (-1 : ℤ) < 0) := by
  refine ⟨?_, ?_, by norm_num⟩
  · intro rl u t
    constructor <;> simp [record_request]
  · simp [get_usage, clean_old_requests, record_request, RateLimiter.init, List.filter]

end SalesHub
